import Mathlib

/-!
Shallow embedding of `docs/notebooks/elmer_01_electrostatic.py`, a linear
tutorial script that builds an enclosed interdigital-capacitor geometry with
gdsfactory, attaches a layer stack and material permittivities, invokes the
external Elmer electrostatic solver once, and (conditionally) plots the
resulting field with pyvista.

Numbers are embedded as rationals (`ℚ`); the external libraries
(gdsfactory, pyvista, Elmer) are modelled symbolically: geometry-library
calls become constructors of a symbolic geometry type recording exactly the
operation and arguments the script passes, and the solver becomes an
abstract function parameter, since the script treats all three as black
boxes.
-/

namespace Elmer01

/-- The GDS layers the notebook uses (`LAYER.WAFER`, `LAYER.WG`,
`LAYER.DEEPTRENCH` from gdsfactory's generic PDK). -/
inductive Layer where
  | WAFER
  | WG
  | DEEPTRENCH
  deriving DecidableEq, Repr

/-- One `LayerLevel(layer=…, thickness=…, zmin=…, material=…, mesh_order=…)`
entry of the layer stack. -/
structure LayerLevel where
  layer : Layer
  thickness : ℚ
  zmin : ℚ
  material : String
  mesh_order : ℕ
  deriving DecidableEq, Repr

/-- The `LayerStack(layers=dict(...))` object: an association list from
fabrication layer name to its `LayerLevel`. -/
structure LayerStack where
  layers : List (String × LayerLevel)
  deriving DecidableEq, Repr

/-- The example layer stack of the notebook (lines 66-83):
`substrate = LayerLevel(layer=LAYER.WAFER, thickness=500, zmin=0,
material="Si", mesh_order=99)` and `bw = LayerLevel(layer=LAYER.WG,
thickness=200e-3, zmin=500, material="Nb", mesh_order=2)`. -/
def layer_stack : LayerStack :=
  { layers :=
      [ ("substrate",
          { layer := Layer.WAFER
          , thickness := 500
          , zmin := 0
          , material := "Si"
          , mesh_order := 99 })
      , ("bw",
          { layer := Layer.WG
          , thickness := 1/5
          , zmin := 500
          , material := "Nb"
          , mesh_order := 2 }) ] }

/-- Dictionary lookup `layer_stack.layers[name]`. -/
def layerLookup (name : String) : Option LayerLevel :=
  (layer_stack.layers.lookup name)

/-- A relative permittivity value; `Nb` is assigned the float `inf`, which we
embed as a separate constructor rather than as a number. -/
inductive Permittivity where
  | finite (value : ℚ)
  | infinite
  deriving DecidableEq, Repr

/-- The `material_spec` dictionary (lines 84-88): `Si ↦ 11.45`,
`Nb ↦ inf`, `vacuum ↦ 1` (each under the key `"relative_permittivity"`). -/
def material_spec : List (String × Permittivity) :=
  [ ("Si", Permittivity.finite (229/20))
  , ("Nb", Permittivity.infinite)
  , ("vacuum", Permittivity.finite 1) ]

/-! ### The script as a linear trace

The notebook is a straight-line script.  We record the observable steps of
one run as a list of events, in the order the Python interpreter performs
them: the metadata dictionaries are defined first (lines 66-88), the
geometry component `c` is built (lines 184-192), the metadata is attached
to the run by evaluating the keyword arguments of the solver call
(lines 196-229), the solver is invoked once (line 195), and, only when
`results.field_file_location` is truthy, the field file is read, sliced and
plotted (lines 234-243). -/

/-- One observable step of the script. -/
inductive Step where
  | defineLayerStack
  | defineMaterialSpec
  | buildGeometry
  | attachMetadata
  | solverCall
  | loadResult
  | sliceField
  | plotResult
  deriving DecidableEq, Repr

/-- The trace of one run of the script, as a function of the
`field_file_location` the solver returned (`none` models a falsy value, on
which line 234's `if` skips the plotting block). -/
def scriptTrace (fieldFile : Option String) : List Step :=
  [ Step.defineLayerStack
  , Step.defineMaterialSpec
  , Step.buildGeometry
  , Step.attachMetadata
  , Step.solverCall ]
  ++ (match fieldFile with
      | some _ => [Step.loadResult, Step.sliceField, Step.plotResult]
      | none => [])

/-- In trace `t`, every occurrence of `a` comes strictly before every
occurrence of `b`. -/
def stepBefore (a b : Step) (t : List Step) : Prop :=
  ∀ i j : Fin t.length, t.get i = a → t.get j = b → (i : ℕ) < (j : ℕ)

instance (a b : Step) (t : List Step) : Decidable (stepBefore a b t) := by
  unfold stepBefore; infer_instance

/-! ### The solver invocation and the visualization -/

/-- The value returned by `run_capacitive_simulation_elmer`: all the script
inspects is `results.field_file_location`. -/
structure SimResults where
  field_file_location : Option String
  deriving DecidableEq, Repr

/-- The pyvista visualization the script performs when
`results.field_file_location` is truthy (lines 234-243): it reads that
file, takes an orthogonal slice at `z = layer_stack.layers["bw"].zmin * 1e-6`
and plots the `"electric field"` scalars. -/
structure PlotAction where
  file : String
  slice_z : ℚ
  scalars : String
  deriving DecidableEq, Repr

/-- The final block of the script (lines 234-243): `none` when the `if`
guard is falsy and nothing is plotted, otherwise the plot performed. -/
def visualize (results : SimResults) : Option PlotAction :=
  match results.field_file_location, layerLookup "bw" with
  | some f, some level =>
      some { file := f
           , slice_z := level.zmin * (1/1000000)
           , scalars := "electric field" }
  | _, _ => none

/-! ### Geometry model

gdsfactory objects are modelled symbolically.  A `Port` carries a name, a
position and an orientation in degrees; the geometry-library calls the
script makes (the inner interdigital capacitor, route segments from a cross
section, bounding boxes, polygon offsets and `"A-B"` booleans) become
constructors of `Geom`, each recording the layer it draws on and the
arguments the script passes. -/

/-- A gdsfactory `Port`: name, position and orientation (degrees). -/
structure Port where
  name : String
  x : ℚ
  y : ℚ
  orientation : ℚ
  deriving DecidableEq, Repr

/-- Model of `port.move((dx, dy))`. -/
def Port.move (p : Port) (dx dy : ℚ) : Port :=
  { p with x := p.x + dx, y := p.y + dy }

/-- Model of `port.flip()`: rotate the orientation by 180 degrees, reduced
modulo 360
(the script only flips ports with orientation 0 or 180, where this agrees
with Python's float `%`). -/
def Port.flip (p : Port) : Port :=
  { p with orientation :=
      if p.orientation + 180 < 360 then p.orientation + 180
      else p.orientation + 180 - 360 }

/-- Symbolic geometry: one constructor per geometry-library operation the
script uses, each carrying the layer it is drawn on. -/
inductive Geom where
  /-- Model of `interdigital_capacitor(fingers, finger_length, finger_gap,
  thickness, metal_layer).ref_center()`: the inner capacitor body. -/
  | capacitor (fingers : ℕ) (finger_length finger_gap thickness : ℚ)
      (layer : Layer)
  /-- Model of `cap.get_polygon_enclosure()` added with
  `gap.add_polygon(…, layer=…)`: the enclosing polygon of the inner capacitor. -/
  | capEnclosurePolygon (fingers : ℕ) (finger_length finger_gap thickness : ℚ)
      (layer : Layer)
  /-- One straight section of a `get_route` result between the two ports,
  of the given width, at the given transverse offset from the route center. -/
  | traceSeg (start stop : Port) (width offset : ℚ) (layer : Layer)
  /-- Model of `gf.components.bbox([[x1, y1], [x2, y2]], layer=…)`. -/
  | bboxRect (x1 y1 x2 y2 : ℚ) (layer : Layer)
  /-- The termination box of one route: a `bbox([[0, 0], [cpw_b,
  cpw_a + 2*cpw_b]], layer=gap_layer)` reference, shifted by `-cpw_b` in x
  when `direction < 0`, then moved so that it sits at the route's end port
  displaced by `(0, -(cpw_a/2 + cpw_b))`. -/
  | termBox (cpw_a cpw_b : ℚ) (direction : ℤ) (anchor : Port) (layer : Layer)
  /-- Model of `component.offset(distance, layer=…)`. -/
  | offsetBy (g : Geom) (distance : ℚ) (layer : Layer)
  /-- Model of `gf.geometry.boolean(A=A, B=B, operation="A-B", layer=…)`
  where `B` is the list of shapes of the subtracted component(s). -/
  | booleanAminusB (A : Geom) (B : List Geom) (layer : Layer)

/-- The layer a symbolic shape is drawn on. -/
def Geom.layerOf : Geom → Layer
  | .capacitor _ _ _ _ l => l
  | .capEnclosurePolygon _ _ _ _ l => l
  | .traceSeg _ _ _ _ l => l
  | .bboxRect _ _ _ _ l => l
  | .termBox _ _ _ _ l => l
  | .offsetBy _ _ l => l
  | .booleanAminusB _ _ l => l

/-- A gdsfactory `Component`: its drawn shapes and its ports. -/
structure GComponent where
  shapes : List Geom
  ports : List Port

/-- A `get_route` result: the drawn references and the route's ports
(`route.ports[-1]` is the end port, i.e. the flipped displaced copy the
route was asked to reach). -/
structure Route where
  refs : List Geom
  endPort : Port

/-- Model of `gf.routing.get_route(port, port2, cross_section=x)` where `x` has a
center trace of width `cpw_a` on `metal_layer` at offset 0 and two sections
of width `cpw_b` on `gap_layer` at offsets `±(cpw_a + cpw_b)/2`
(the `s1`, `s2` sections of lines 141-149). -/
def get_route (port port2 : Port) (cpw_a cpw_b : ℚ)
    (metal_layer gap_layer : Layer) : Route :=
  { refs :=
      [ Geom.traceSeg port port2 cpw_a 0 metal_layer
      , Geom.traceSeg port port2 cpw_b ((cpw_a + cpw_b) / 2) gap_layer
      , Geom.traceSeg port port2 cpw_b (-((cpw_a + cpw_b) / 2)) gap_layer ]
  , endPort := port2 }

/-- Helper for `auto_rename_ports`, keeping only what the script relies
on: it renames every port (here to `"e1"`, `"e2"`, … in list order) and
changes nothing else. -/
def renameFrom (i : ℕ) : List Port → List Port
  | [] => []
  | p :: ps => { p with name := "e" ++ toString i } :: renameFrom (i + 1) ps

/-- Model of `auto_rename_ports` applied to a port list. -/
def autoRename (ps : List Port) : List Port :=
  renameFrom 1 ps

/-- The parameters of `interdigital_capacitor_enclosed` (lines 99-109).
The defaults for `fingers`, `finger_length`, `finger_gap`, `thickness` and
`metal_layer` are `INTERDIGITAL_DEFAULTS`, read off gdsfactory's
`interdigital_capacitor` signature. -/
structure EnclosedParams where
  enclosure_box : (ℚ × ℚ) × (ℚ × ℚ) := ((-200, -200), (200, 200))
  fingers : ℕ := 4
  finger_length : ℚ := 20
  finger_gap : ℚ := 2
  thickness : ℚ := 5
  cpw_dimensions : List ℚ := [10, 6]
  gap_to_ground : ℚ := 5
  metal_layer : Layer := Layer.WG
  gap_layer : Layer := Layer.DEEPTRENCH

/-- The failure mode of the function body: the tuple unpacking
`cpw_a, cpw_b = cpw_dimensions` (line 140) raises when `cpw_dimensions`
does not have exactly two elements.  The error records how many routes had
been created when it was raised. -/
inductive BuildError where
  | unpackError (routesCreated : ℕ)
  deriving DecidableEq, Repr

/-- The unpacking `cpw_a, cpw_b = cpw_dimensions`: succeeds exactly on
two-element sequences. -/
def unpack2 : List ℚ → Option (ℚ × ℚ)
  | [a, b] => some (a, b)
  | _ => none

/-- State threaded through the `for port in cap.get_ports_list()` loop. -/
structure LoopState where
  comp : GComponent
  routesCreated : ℕ

/-- One iteration of the loop body (lines 134-167): copy the port, displace
it by `(30 * direction, 0)` with `direction = -1` when the orientation is
positive and `1` otherwise, flip it, unpack `cpw_dimensions`, build the
route, add its references, add the termination box, add the route's end
port, and auto-rename the ports. -/
def loopBody (metal_layer gap_layer : Layer) (cpw_dimensions : List ℚ)
    (st : LoopState) (port : Port) : Except BuildError LoopState :=
  let direction : ℤ := if port.orientation > 0 then -1 else 1
  let port2 := (port.move (30 * (direction : ℚ)) 0).flip
  match unpack2 cpw_dimensions with
  | none => Except.error (BuildError.unpackError st.routesCreated)
  | some (cpw_a, cpw_b) =>
      let route := get_route port port2 cpw_a cpw_b metal_layer gap_layer
      let withRoute := st.comp.shapes ++ route.refs
      let term := Geom.termBox cpw_a cpw_b direction route.endPort gap_layer
      Except.ok
        { comp :=
            { shapes := withRoute ++ [term]
            , ports := autoRename (st.comp.ports ++ [route.endPort]) }
        , routesCreated := st.routesCreated + 1 }

/-- `interdigital_capacitor_enclosed` (lines 99-180), parameterized over
the port list of the inner interdigital capacitor (`cap.get_ports_list()`,
a black-box library value).  The body mirrors the source: build the inner
capacitor, run the loop over its ports, build the trench `gap` as the
offset enclosing polygon minus the component (`boolean "A-B"`), build the
`ground` as the enclosure box minus the component and the trench
(`boolean "A-B"`), add the ground, and return. -/
def interdigital_capacitor_enclosed (capPorts : List Port)
    (p : EnclosedParams) : Except BuildError GComponent := do
  let cap := Geom.capacitor p.fingers p.finger_length p.finger_gap
    p.thickness p.metal_layer
  let c0 : GComponent := { shapes := [cap], ports := [] }
  let st ← capPorts.foldlM (loopBody p.metal_layer p.gap_layer p.cpw_dimensions)
    { comp := c0, routesCreated := 0 }
  let gapPoly := Geom.capEnclosurePolygon p.fingers p.finger_length
    p.finger_gap p.thickness p.gap_layer
  let gapOffset := Geom.offsetBy gapPoly p.gap_to_ground p.gap_layer
  let gap := Geom.booleanAminusB gapOffset st.comp.shapes p.gap_layer
  let ground0 := Geom.bboxRect p.enclosure_box.1.1 p.enclosure_box.1.2
    p.enclosure_box.2.1 p.enclosure_box.2.2 p.metal_layer
  let ground := Geom.booleanAminusB ground0 (st.comp.shapes ++ [gap])
    p.metal_layer
  return { shapes := st.comp.shapes ++ [ground], ports := st.comp.ports }

/-- The two ports of gdsfactory's `interdigital_capacitor` (a black-box
library value): `o1` on the west side with orientation 180 and `o2` on the
east side with orientation 0, on the centered reference. -/
def capPortsDefault : List Port :=
  [ { name := "o1", x := -57/2, y := 0, orientation := 180 }
  , { name := "o2", x := 57/2, y := 0, orientation := 0 } ]

/-- Line 184: `simulation_box = [[-200, -200], [200, 200]]`. -/
def simulation_box : (ℚ × ℚ) × (ℚ × ℚ) := ((-200, -200), (200, 200))

/-- The parameters of the top-level call (lines 186-188):
`interdigital_capacitor_enclosed(metal_layer=LAYER.WG,
gap_layer=LAYER.DEEPTRENCH, enclosure_box=simulation_box)`, everything
else at its default. -/
def topParams : EnclosedParams :=
  { enclosure_box := simulation_box
  , metal_layer := Layer.WG
  , gap_layer := Layer.DEEPTRENCH }

/-- The component `c = gf.Component("capacitance_elmer")` of lines 184-192:
the enclosed capacitor instance with its ports copied up, plus the
substrate bounding box on `LAYER.WAFER`.  (The build provably succeeds;
the error branch is unreachable.) -/
def capacitance_elmer : GComponent :=
  match interdigital_capacitor_enclosed capPortsDefault topParams with
  | Except.ok encl =>
      { shapes := encl.shapes ++
          [ Geom.bboxRect simulation_box.1.1 simulation_box.1.2
              simulation_box.2.1 simulation_box.2.2 Layer.WAFER ]
      , ports := encl.ports }
  | Except.error _ => { shapes := [], ports := [] }

/-! ### The solver call -/

/-- The `mesh_parameters` dictionary of the solver call (lines 202-229). -/
structure MeshParams where
  background_tag : String
  background_padding : List ℚ
  portnames : List String
  default_characteristic_length : ℚ
  layer_portname_delimiter : String
  resolutions : List (String × List (String × ℚ))
  deriving DecidableEq, Repr

/-- The walrus-bound delimiter string of line 207. -/
def delimiter : String := "__"

/-- The concrete `mesh_parameters` value the script passes. -/
def mesh_parameters : MeshParams :=
  { background_tag := "vacuum"
  , background_padding := [0, 0, 0, 0, 0, 700]
  , portnames := capacitance_elmer.ports.map Port.name
  , default_characteristic_length := 200
  , layer_portname_delimiter := delimiter
  , resolutions :=
      [ ("bw", [("resolution", 15)])
      , ("substrate", [("resolution", 40)])
      , ("vacuum", [("resolution", 40)]) ]
      ++ capacitance_elmer.ports.map (fun port =>
          ( "bw" ++ delimiter ++ port.name
          , [ ("resolution", 20), ("DistMax", 30), ("DistMin", 10)
            , ("SizeMax", 14), ("SizeMin", 3) ] )) }

/-- Every argument of the single `run_capacitive_simulation_elmer` call
(lines 195-230). -/
structure SolverArgs where
  component : GComponent
  layer_stack : LayerStack
  material_spec : List (String × Permittivity)
  n_processes : ℕ
  element_order : ℕ
  mesh_parameters : MeshParams

/-- The script's one solver invocation (line 195), as a function of the
black-box solver: `results = run_capacitive_simulation_elmer(c,
layer_stack=layer_stack, material_spec=material_spec, n_processes=4,
element_order=1, …)`. -/
def scriptResults (solver : SolverArgs → SimResults) : SimResults :=
  solver
    { component := capacitance_elmer
    , layer_stack := layer_stack
    , material_spec := material_spec
    , n_processes := 4
    , element_order := 1
    , mesh_parameters := mesh_parameters }

/-! ### The shapes the loop and the booleans produce

The following definitions name the values the source's loop body and its
two `"A-B"` booleans construct, so that theorems can state the result of
`interdigital_capacitor_enclosed` in closed form. -/

/-- The displaced flipped copy of a capacitor port the route is built to
(lines 135-138): the port moved by `(30 * direction, 0)` with
`direction = -1` when `port.orientation > 0` and `1` otherwise, then
flipped. -/
def endPortFor (port : Port) : Port :=
  let direction : ℤ := if port.orientation > 0 then -1 else 1
  (port.move (30 * (direction : ℚ)) 0).flip

/-- The four shapes one loop iteration adds for a capacitor port: the
route's center trace on the metal layer, its two gap sections on the gap
layer, and the termination box on the gap layer (lines 140-164). -/
def portShapesFor (metal_layer gap_layer : Layer) (cpw_a cpw_b : ℚ)
    (port : Port) : List Geom :=
  let direction : ℤ := if port.orientation > 0 then -1 else 1
  [ Geom.traceSeg port (endPortFor port) cpw_a 0 metal_layer
  , Geom.traceSeg port (endPortFor port) cpw_b ((cpw_a + cpw_b) / 2) gap_layer
  , Geom.traceSeg port (endPortFor port) cpw_b (-((cpw_a + cpw_b) / 2)) gap_layer
  , Geom.termBox cpw_a cpw_b direction (endPortFor port) gap_layer ]

/-- The shapes of the component after the loop: the inner capacitor
followed by the four shapes of each capacitor port. -/
def loopShapes (p : EnclosedParams) (capPorts : List Port)
    (cpw_a cpw_b : ℚ) : List Geom :=
  Geom.capacitor p.fingers p.finger_length p.finger_gap p.thickness p.metal_layer
    :: capPorts.flatMap (portShapesFor p.metal_layer p.gap_layer cpw_a cpw_b)

/-- The trench region (lines 169-171): the capacitor's enclosing polygon,
offset by `gap_to_ground`, minus the component, as a `boolean "A-B"` on
the gap layer. -/
def trenchOf (p : EnclosedParams) (capPorts : List Port)
    (cpw_a cpw_b : ℚ) : Geom :=
  Geom.booleanAminusB
    (Geom.offsetBy
      (Geom.capEnclosurePolygon p.fingers p.finger_length p.finger_gap
        p.thickness p.gap_layer)
      p.gap_to_ground p.gap_layer)
    (loopShapes p capPorts cpw_a cpw_b) p.gap_layer

/-- The ground plane (lines 173-176): the enclosure box minus the
component and the trench, as a `boolean "A-B"` on the metal layer. -/
def groundOf (p : EnclosedParams) (capPorts : List Port)
    (cpw_a cpw_b : ℚ) : Geom :=
  Geom.booleanAminusB
    (Geom.bboxRect p.enclosure_box.1.1 p.enclosure_box.1.2
      p.enclosure_box.2.1 p.enclosure_box.2.2 p.metal_layer)
    (loopShapes p capPorts cpw_a cpw_b ++ [trenchOf p capPorts cpw_a cpw_b])
    p.metal_layer

/-- The port list the loop accumulates: each iteration appends the route's
end port and auto-renames. -/
def loopPorts (acc : List Port) : List Port → List Port
  | [] => acc
  | x :: xs => loopPorts (autoRename (acc ++ [endPortFor x])) xs

lemma renameFrom_length (i : ℕ) (ps : List Port) :
    (renameFrom i ps).length = ps.length := by
  induction ps generalizing i with
  | nil => rfl
  | cons p ps ih => simp [renameFrom, ih]

lemma renameFrom_idem_append (i : ℕ) (ys zs : List Port) :
    renameFrom i (renameFrom i ys ++ zs) = renameFrom i (ys ++ zs) := by
  induction ys generalizing i with
  | nil => rfl
  | cons y ys ih => simp [renameFrom, ih]

lemma loopPorts_autoRename (xs : List Port) (acc : List Port) :
    loopPorts (autoRename acc) xs = autoRename (acc ++ xs.map endPortFor) := by
  induction xs generalizing acc with
  | nil => simp [loopPorts]
  | cons x xs ih =>
      rw [loopPorts]
      have h : autoRename (autoRename acc ++ [endPortFor x])
          = autoRename (acc ++ [endPortFor x]) := by
        unfold autoRename
        exact renameFrom_idem_append 1 acc [endPortFor x]
      rw [h, ih]
      simp

lemma loopPorts_nil (xs : List Port) :
    loopPorts [] xs = autoRename (xs.map endPortFor) := by
  have h := loopPorts_autoRename xs []
  simpa [autoRename, renameFrom] using h

lemma foldlM_loopBody_ok (metal_layer gap_layer : Layer) (a b : ℚ)
    (ports : List Port) : ∀ st : LoopState,
    ports.foldlM (loopBody metal_layer gap_layer [a, b]) st =
      Except.ok
        { comp :=
            { shapes := st.comp.shapes
                ++ ports.flatMap (portShapesFor metal_layer gap_layer a b)
            , ports := loopPorts st.comp.ports ports }
        , routesCreated := st.routesCreated + ports.length } := by
  induction ports with
  | nil =>
      intro st
      simp [loopPorts]
      rfl
  | cons x xs ih =>
      intro st
      rw [List.foldlM_cons]
      have hbody : loopBody metal_layer gap_layer [a, b] st x =
          Except.ok
            { comp :=
                { shapes := st.comp.shapes
                    ++ portShapesFor metal_layer gap_layer a b x
                , ports := autoRename (st.comp.ports ++ [endPortFor x]) }
            , routesCreated := st.routesCreated + 1 } := by
        simp [loopBody, unpack2, get_route, portShapesFor, endPortFor]
      rw [hbody]
      show xs.foldlM (loopBody metal_layer gap_layer [a, b]) _ = _
      rw [ih]
      congr 1
      simp [loopPorts, List.flatMap_cons]
      omega

lemma except_ok_bind {ε α β : Type} (a : α) (f : α → Except ε β) :
    (Except.ok a >>= f) = f a := rfl

lemma except_error_bind {ε α β : Type} (e : ε) (f : α → Except ε β) :
    ((Except.error e : Except ε α) >>= f) = Except.error e := rfl

lemma unpack2_pair (a b : ℚ) : unpack2 [a, b] = some (a, b) := rfl

lemma unpack2_none {l : List ℚ} (h : l.length ≠ 2) : unpack2 l = none := by
  match l with
  | [] => rfl
  | [a] => rfl
  | [a, b] => exact absurd rfl h
  | a :: b :: c :: rest => rfl

/-- Closed form of a successful build: when `cpw_dimensions` unpacks, the
function returns the inner capacitor, the four shapes of each port, and
the ground plane, with the auto-renamed end ports. -/
lemma build_eq (capPorts : List Port) (p : EnclosedParams) (a b : ℚ)
    (h : p.cpw_dimensions = [a, b]) :
    interdigital_capacitor_enclosed capPorts p =
      Except.ok
        { shapes := loopShapes p capPorts a b ++ [groundOf p capPorts a b]
        , ports := autoRename (capPorts.map endPortFor) } := by
  simp only [interdigital_capacitor_enclosed, h]
  rw [foldlM_loopBody_ok, except_ok_bind]
  simp [loopShapes, groundOf, trenchOf, loopPorts_nil]
  rfl

/-- A build whose `cpw_dimensions` does not unpack fails on the first loop
iteration, before any route has been created. -/
lemma build_error (x : Port) (xs : List Port) (p : EnclosedParams)
    (hnone : unpack2 p.cpw_dimensions = none) :
    interdigital_capacitor_enclosed (x :: xs) p
      = Except.error (BuildError.unpackError 0) := by
  simp only [interdigital_capacitor_enclosed]
  rw [List.foldlM_cons]
  have hb : loopBody p.metal_layer p.gap_layer p.cpw_dimensions
      { comp :=
          { shapes := [Geom.capacitor p.fingers p.finger_length p.finger_gap
              p.thickness p.metal_layer]
          , ports := [] }
      , routesCreated := 0 } x
      = Except.error (BuildError.unpackError 0) := by
    simp [loopBody, hnone]
  rw [hb, except_error_bind, except_error_bind]

/-- Any successful loop iteration adds exactly one port. -/
lemma loopBody_ok_ports (metal_layer gap_layer : Layer) (cpw : List ℚ)
    (st st1 : LoopState) (x : Port)
    (hb : loopBody metal_layer gap_layer cpw st x = Except.ok st1) :
    st1.comp.ports.length = st.comp.ports.length + 1 := by
  cases hu : unpack2 cpw with
  | none =>
      rw [show loopBody metal_layer gap_layer cpw st x
          = Except.error (BuildError.unpackError st.routesCreated) by
            simp [loopBody, hu]] at hb
      exact Except.noConfusion hb
  | some ab =>
      simp only [loopBody, hu] at hb
      cases hb
      simp [autoRename, renameFrom_length]

/-- A successful loop run adds exactly one port per processed capacitor
port. -/
lemma foldlM_loopBody_ports_length (metal_layer gap_layer : Layer)
    (cpw : List ℚ) (ports : List Port) : ∀ st st' : LoopState,
    ports.foldlM (loopBody metal_layer gap_layer cpw) st = Except.ok st' →
    st'.comp.ports.length = st.comp.ports.length + ports.length := by
  induction ports with
  | nil =>
      intro st st' h
      have h' : Except.ok st = Except.ok st' := h
      injection h' with h2
      subst h2
      simp
  | cons x xs ih =>
      intro st st' h
      rw [List.foldlM_cons] at h
      cases hb : loopBody metal_layer gap_layer cpw st x with
      | error e => rw [hb, except_error_bind] at h; exact Except.noConfusion h
      | ok st1 =>
          rw [hb, except_ok_bind] at h
          have h1 := loopBody_ok_ports metal_layer gap_layer cpw st st1 x hb
          have h2 := ih st1 st' h
          simp only [List.length_cons]
          omega

/-- The concrete component the top-level build produces; see
`builtComponent_ok` for the proof that the build reaches it. -/
def builtComponent : GComponent :=
  { shapes := loopShapes topParams capPortsDefault 10 6
      ++ [groundOf topParams capPortsDefault 10 6]
  , ports := autoRename (capPortsDefault.map endPortFor) }

/-- The top-level build (lines 186-188) succeeds and produces
`builtComponent`. -/
lemma builtComponent_ok :
    interdigital_capacitor_enclosed capPortsDefault topParams
      = Except.ok builtComponent :=
  build_eq capPortsDefault topParams 10 6 rfl

/-- The trace on a truthy field file, in closed form. -/
lemma scriptTrace_some (s : String) :
    scriptTrace (some s)
      = [ Step.defineLayerStack, Step.defineMaterialSpec, Step.buildGeometry
        , Step.attachMetadata, Step.solverCall, Step.loadResult
        , Step.sliceField, Step.plotResult ] := rfl

/-- The trace on an absent field file, in closed form. -/
lemma scriptTrace_none :
    scriptTrace none
      = [ Step.defineLayerStack, Step.defineMaterialSpec, Step.buildGeometry
        , Step.attachMetadata, Step.solverCall ] := rfl

/-! ### Claims -/

/-- Claim C1: every run of the script is a linear pipeline in a fixed
order: the capacitor geometry is built before the metadata is attached to
the solver call, the metadata is attached before the solver is invoked,
the solver `run_capacitive_simulation_elmer` is invoked exactly once, and
the result is loaded and plotted only after that invocation. -/
theorem C1_linear_pipeline (fieldFile : Option String) :
    (scriptTrace fieldFile).count Step.solverCall = 1 ∧
    stepBefore Step.buildGeometry Step.attachMetadata (scriptTrace fieldFile) ∧
    stepBefore Step.attachMetadata Step.solverCall (scriptTrace fieldFile) ∧
    stepBefore Step.buildGeometry Step.solverCall (scriptTrace fieldFile) ∧
    stepBefore Step.solverCall Step.loadResult (scriptTrace fieldFile) ∧
    stepBefore Step.solverCall Step.plotResult (scriptTrace fieldFile) := by
  cases fieldFile with
  | none => rw [scriptTrace_none]; decide
  | some s => rw [scriptTrace_some]; decide

/-- Claim C2: all physics is delegated to the external solver: the
script's simulation results are whatever the single invocation of
`run_capacitive_simulation_elmer` returns on exactly the geometry
component `c`, the layer stack, the material permittivity mapping
(assigning a relative permittivity to each of Si, Nb and vacuum), and the
run and mesh parameters; the script computes no field or capacitance value
itself. -/
theorem C2_solver_delegation (solver : SolverArgs → SimResults)
    (fieldFile : Option String) :
    scriptResults solver = solver
      { component := capacitance_elmer
      , layer_stack := layer_stack
      , material_spec := material_spec
      , n_processes := 4
      , element_order := 1
      , mesh_parameters := mesh_parameters } ∧
    material_spec.lookup "Si" = some (Permittivity.finite (229/20)) ∧
    material_spec.lookup "Nb" = some Permittivity.infinite ∧
    material_spec.lookup "vacuum" = some (Permittivity.finite 1) ∧
    (scriptTrace fieldFile).count Step.solverCall = 1 := by
  refine ⟨rfl, rfl, rfl, rfl, ?_⟩
  cases fieldFile with
  | none => rw [scriptTrace_none]; decide
  | some s => rw [scriptTrace_some]; decide

/-- Claim C3, counterexample: the visualization is not an unconditional
final step of every run: on a run where the solver returns no
`field_file_location`, line 234's guard is falsy, nothing is plotted, and
the trace contains no plot step. -/
theorem C3_counterexample_no_plot :
    visualize { field_file_location := none } = none ∧
    Step.plotResult ∉ scriptTrace none :=
  ⟨rfl, by decide⟩

/-- Claim C3, amended: the script visualizes the resulting field exactly
when `results.field_file_location` is truthy: it then reads the file named
by it, takes an orthogonal slice at z equal to the `bw` layer's zmin
scaled by 1e-6 (500 * 1e-6), and plots the "electric field" scalar, after
the solver call; when the field file location is absent nothing is
plotted. -/
theorem C3_conditional_visualization (results : SimResults)
    (fieldFile : Option String) :
    visualize results = results.field_file_location.map (fun f =>
      { file := f
      , slice_z := 500 * (1/1000000)
      , scalars := "electric field" }) ∧
    (layerLookup "bw").map (fun level => level.zmin * (1/1000000))
      = some (500 * (1/1000000)) ∧
    ((Step.plotResult ∈ scriptTrace fieldFile) ↔ fieldFile.isSome = true) ∧
    stepBefore Step.solverCall Step.plotResult (scriptTrace fieldFile) := by
  refine ⟨?_, rfl, ?_, ?_⟩
  · cases results with
    | mk f => cases f <;> rfl
  · cases fieldFile with
    | none => rw [scriptTrace_none]; simp
    | some s => rw [scriptTrace_some]; simp
  · cases fieldFile with
    | none => rw [scriptTrace_none]; decide
    | some s => rw [scriptTrace_some]; decide

/-- Claim C4: the layer stack handed to the solver has exactly two
entries: `"substrate"` maps to (layer WAFER, material "Si", thickness 500,
zmin 0, mesh_order 99) and `"bw"` maps to (layer WG, material "Nb",
thickness 200e-3, zmin 500, mesh_order 2); every entry carries a material,
a thickness and a zmin (their presence is enforced by the `LayerLevel`
record type, and the materials are listed explicitly). -/
theorem C4_layer_stack_contents :
    layer_stack.layers.length = 2 ∧
    layerLookup "substrate"
      = some { layer := Layer.WAFER, thickness := 500, zmin := 0
             , material := "Si", mesh_order := 99 } ∧
    layerLookup "bw"
      = some { layer := Layer.WG, thickness := 1/5, zmin := 500
             , material := "Nb", mesh_order := 2 } ∧
    layer_stack.layers.map (fun e => e.2.material) = ["Si", "Nb"] :=
  ⟨rfl, rfl, rfl, rfl⟩

/-- Claim C9: in the example layer stack the metal layer sits directly on
top of the substrate: the zmin of the `"bw"` layer equals the zmin of the
`"substrate"` layer plus the substrate's thickness, exactly
(500 = 0 + 500). -/
theorem C9_bw_sits_on_substrate :
    (layerLookup "bw").map LayerLevel.zmin
      = (layerLookup "substrate").map (fun level => level.zmin + level.thickness) ∧
    (layerLookup "bw").map LayerLevel.zmin = some 500 ∧
    (layerLookup "substrate").map LayerLevel.zmin = some 0 ∧
    (layerLookup "substrate").map LayerLevel.thickness = some 500 := by
  refine ⟨?_, rfl, rfl, rfl⟩
  simp [layerLookup, layer_stack, List.lookup]

/-- Claim C5: the geometry construction of
`interdigital_capacitor_enclosed`: for every port of the inner capacitor
it creates one coplanar-waveguide route to a copy of that port displaced
30 units in x (-30 when the orientation is positive, +30 otherwise) and
registers the route's end port; the trench is the capacitor's enclosing
polygon offset by `gap_to_ground` minus the component (boolean `"A-B"`);
the ground plane is the enclosure box minus the component and the trench
(boolean `"A-B"`). -/
theorem C5_construction_structure (capPorts : List Port) (p : EnclosedParams)
    (a b : ℚ) (h : p.cpw_dimensions = [a, b]) :
    interdigital_capacitor_enclosed capPorts p =
      Except.ok
        { shapes := loopShapes p capPorts a b ++ [groundOf p capPorts a b]
        , ports := autoRename (capPorts.map endPortFor) } ∧
    (∀ port : Port, endPortFor port
        = (port.move (if port.orientation > 0 then -30 else 30) 0).flip) ∧
    trenchOf p capPorts a b
      = Geom.booleanAminusB
          (Geom.offsetBy
            (Geom.capEnclosurePolygon p.fingers p.finger_length p.finger_gap
              p.thickness p.gap_layer)
            p.gap_to_ground p.gap_layer)
          (loopShapes p capPorts a b) p.gap_layer ∧
    groundOf p capPorts a b
      = Geom.booleanAminusB
          (Geom.bboxRect p.enclosure_box.1.1 p.enclosure_box.1.2
            p.enclosure_box.2.1 p.enclosure_box.2.2 p.metal_layer)
          (loopShapes p capPorts a b ++ [trenchOf p capPorts a b])
          p.metal_layer := by
  refine ⟨build_eq capPorts p a b h, ?_, rfl, rfl⟩
  intro port
  unfold endPortFor
  by_cases hp : port.orientation > 0 <;> simp [hp]

/-- Claim C5, witness at the notebook's own arguments. -/
theorem C5_witness :
    interdigital_capacitor_enclosed capPortsDefault topParams =
      Except.ok
        { shapes := loopShapes topParams capPortsDefault 10 6
            ++ [groundOf topParams capPortsDefault 10 6]
        , ports := autoRename (capPortsDefault.map endPortFor) } :=
  (C5_construction_structure capPortsDefault topParams 10 6 rfl).1

/-- Claim C6: two-layer discipline: in a successfully built component the
inner capacitor is on `metal_layer`, each port contributes its waveguide
center trace on `metal_layer` and its two gap sections and termination box
on `gap_layer`, the ground plane is on `metal_layer`, the trench region is
built on `gap_layer`, and no shape is on any other layer. -/
theorem C6_two_layer_discipline (capPorts : List Port) (p : EnclosedParams)
    (a b : ℚ) (h : p.cpw_dimensions = [a, b]) (comp : GComponent)
    (hok : interdigital_capacitor_enclosed capPorts p = Except.ok comp) :
    comp.shapes.map Geom.layerOf
      = (p.metal_layer
          :: capPorts.flatMap (fun _ =>
              [p.metal_layer, p.gap_layer, p.gap_layer, p.gap_layer]))
        ++ [p.metal_layer] ∧
    (trenchOf p capPorts a b).layerOf = p.gap_layer ∧
    ∀ g ∈ comp.shapes, g.layerOf = p.metal_layer ∨ g.layerOf = p.gap_layer := by
  rw [build_eq capPorts p a b h] at hok
  injection hok with hc
  subst hc
  have hmap :
      (loopShapes p capPorts a b ++ [groundOf p capPorts a b]).map Geom.layerOf
        = (p.metal_layer
            :: capPorts.flatMap (fun _ =>
                [p.metal_layer, p.gap_layer, p.gap_layer, p.gap_layer]))
          ++ [p.metal_layer] := by
    simp [loopShapes, groundOf, portShapesFor, Geom.layerOf, List.map_flatMap]
  refine ⟨hmap, rfl, ?_⟩
  intro g hg
  have hmem := List.mem_map_of_mem Geom.layerOf hg
  rw [hmap] at hmem
  simp [List.mem_flatMap] at hmem
  tauto

/-- Claim C6, witness: the layer of every shape of the component built at
the notebook's arguments, in order: the capacitor on WG, per port the
center trace on WG and the gap sections and termination box on DEEPTRENCH,
the ground on WG; the trench is built on DEEPTRENCH. -/
theorem C6_witness :
    builtComponent.shapes.map Geom.layerOf
      = [ Layer.WG, Layer.WG, Layer.DEEPTRENCH, Layer.DEEPTRENCH
        , Layer.DEEPTRENCH, Layer.WG, Layer.DEEPTRENCH, Layer.DEEPTRENCH
        , Layer.DEEPTRENCH, Layer.WG ] ∧
    (trenchOf topParams capPortsDefault 10 6).layerOf = Layer.DEEPTRENCH :=
  ⟨(C6_two_layer_discipline capPortsDefault topParams 10 6 rfl builtComponent
      builtComponent_ok).1,
   (C6_two_layer_discipline capPortsDefault topParams 10 6 rfl builtComponent
      builtComponent_ok).2.1⟩

/-- Claim C7: `cpw_dimensions` must have exactly two elements: a
two-element sequence unpacks into trace width and gap width and the build
proceeds to success; a sequence of any other length fails at the
unpacking, on the first loop iteration, before any route has been created
(the error records zero routes created). -/
theorem C7_cpw_dimensions_arity (l : List ℚ) :
    (∀ a b : ℚ, l = [a, b] →
      unpack2 l = some (a, b) ∧
      (interdigital_capacitor_enclosed capPortsDefault
        { topParams with cpw_dimensions := l }).isOk = true) ∧
    (l.length ≠ 2 →
      unpack2 l = none ∧
      interdigital_capacitor_enclosed capPortsDefault
        { topParams with cpw_dimensions := l }
          = Except.error (BuildError.unpackError 0)) := by
  constructor
  · rintro a b rfl
    refine ⟨rfl, ?_⟩
    rw [build_eq capPortsDefault _ a b rfl]
    rfl
  · intro hlen
    refine ⟨unpack2_none hlen, ?_⟩
    exact build_error _ _ _ (unpack2_none hlen)

/-- Claim C7, witness: the default `(10, 6)` unpacks and builds; the
three-element list `[10, 6, 5]` fails at the unpacking with no route
created. -/
theorem C7_witness :
    (unpack2 [10, 6] = some (10, 6) ∧
      (interdigital_capacitor_enclosed capPortsDefault
        { topParams with cpw_dimensions := [10, 6] }).isOk = true) ∧
    (unpack2 [10, 6, 5] = none ∧
      interdigital_capacitor_enclosed capPortsDefault
        { topParams with cpw_dimensions := [10, 6, 5] }
          = Except.error (BuildError.unpackError 0)) :=
  ⟨(C7_cpw_dimensions_arity [10, 6]).1 10 6 rfl,
   (C7_cpw_dimensions_arity [10, 6, 5]).2 (by decide)⟩

/-- Claim C8: whenever `interdigital_capacitor_enclosed` succeeds, the
returned component has exactly one port per port of the inner interdigital
capacitor. -/
theorem C8_one_port_per_cap_port (capPorts : List Port) (p : EnclosedParams)
    (comp : GComponent)
    (hok : interdigital_capacitor_enclosed capPorts p = Except.ok comp) :
    comp.ports.length = capPorts.length := by
  simp only [interdigital_capacitor_enclosed] at hok
  cases hf : capPorts.foldlM
      (loopBody p.metal_layer p.gap_layer p.cpw_dimensions)
      { comp :=
          { shapes := [Geom.capacitor p.fingers p.finger_length p.finger_gap
              p.thickness p.metal_layer]
          , ports := [] }
      , routesCreated := 0 } with
  | error e =>
      rw [hf, except_error_bind] at hok
      exact Except.noConfusion hok
  | ok st =>
      rw [hf, except_ok_bind] at hok
      have hports := foldlM_loopBody_ports_length p.metal_layer p.gap_layer
        p.cpw_dimensions capPorts _ _ hf
      have h2 : Except.ok _ = Except.ok comp := hok
      injection h2 with h3
      rw [← h3]
      simpa using hports

/-- Claim C8, witness: at the notebook's arguments the built component has
as many ports as the inner capacitor (two). -/
theorem C8_witness : builtComponent.ports.length = capPortsDefault.length :=
  C8_one_port_per_cap_port capPortsDefault topParams builtComponent
    builtComponent_ok

end Elmer01
